import Mathlib

/-!
Shallow embedding of the playback-orchestration core of `src/bot.py`
(a per-guild music queue driven over a Discord voice connection).

Python state is modelled immutably: every operation takes the guild's
`GuildMusicState` and returns the updated state.  The Discord voice
client is modelled by the observable flags the code reads
(`is_connected`, `is_playing`, `is_paused`) plus its bound channel.
External collaborators are parameters:
  - `ok : Track → Bool` models whether `discord.FFmpegOpusAudio(...)`
    construction succeeds for a track's stream url (bot.py 197-207);
  - `resolve : String → Option YtdlInfo` models `ytdlp_extract`
    (bot.py 83-98), `none` being an extraction error.
The asyncio event loop runs one guild's handlers without preemption
between awaits, so each synchronous stretch of the source is one Lean
function.
-/

namespace BotRapage

/-- Track dataclass (bot.py 30-36).  `stream_url` is `info.get("url")`,
which can be `None` in Python, hence `Option String`. -/
structure Track where
  title : String
  stream_url : Option String
  webpage_url : String
  duration : Option Nat
  requester_id : Nat
deriving DecidableEq, Repr

/-- Observable state of a `discord.VoiceClient`: the channel it is bound
to and the three flags the bot reads (`is_connected`, `is_playing`,
`is_paused`). -/
structure VoiceClient where
  channel : Nat
  connected : Bool
  playing : Bool
  paused : Bool
deriving DecidableEq, Repr

/-- GuildMusicState dataclass (bot.py 39-48): FIFO queue, current track,
optional voice client. -/
structure GuildMusicState where
  queue : List Track
  now_playing : Option Track
  voice_client : Option VoiceClient
deriving DecidableEq, Repr

/-- The `__init__` of GuildMusicState (bot.py 45-48). -/
def GuildMusicState.init : GuildMusicState :=
  { queue := [], now_playing := none, voice_client := none }

/-- The registry `music_states` (bot.py 61) as an association list. -/
abbrev StateRegistry : Type := List (Nat × GuildMusicState)

/-- get_music_state (bot.py 64-67): lazily create and return the state
for a guild id; returns the (possibly extended) registry and the state.
Entries are only ever added, never removed. -/
def get_music_state (m : StateRegistry) (guild_id : Nat) :
    StateRegistry × GuildMusicState :=
  match List.lookup guild_id m with
  | some st => (m, st)
  | none => (m ++ [(guild_id, GuildMusicState.init)], GuildMusicState.init)

/-- One yt-dlp info dict (the fields bot.py reads): each key may be
absent or hold `None`, both collapsed to `none`. -/
structure YtdlEntry where
  title : Option String
  url : Option String
  webpage_url : Option String
  original_url : Option String
  duration : Option Nat
deriving DecidableEq, Repr

/-- A top-level yt-dlp result: either a plain info dict or a search
result carrying an `entries` list (bot.py 103). -/
structure YtdlInfo where
  entries : Option (List YtdlEntry)
  top : YtdlEntry
deriving DecidableEq, Repr

/-- Field extraction shared by both shapes (bot.py 106-117):
`title = info.get("title", "Untitled")`,
`webpage_url = info.get("webpage_url", info.get("original_url", ""))`. -/
def trackOfEntry (e : YtdlEntry) (requester_id : Nat) : Track :=
  { title := e.title.getD "Untitled"
    stream_url := e.url
    webpage_url := e.webpage_url.getD (e.original_url.getD "")
    duration := e.duration
    requester_id := requester_id }

/-- build_track_from_info (bot.py 101-117).  When `"entries" in info`,
the code takes `info["entries"][0]` unconditionally; on an empty entries
list this raises `IndexError`, modelled as `Except.error`. -/
def build_track_from_info (info : YtdlInfo) (requester_id : Nat) :
    Except String Track :=
  match info.entries with
  | some [] => Except.error "IndexError"
  | some (e :: _) => Except.ok (trackOfEntry e requester_id)
  | none => Except.ok (trackOfEntry info.top requester_id)

/-- Python truthiness test `if not track.stream_url` (bot.py 307):
falsy when `None` or the empty string. -/
def strFalsy : Option String → Bool
  | none => true
  | some s => s.isEmpty

/-- A fresh voice client as returned by `channel.connect()`
(bot.py 150). -/
def freshClient (ch : Nat) : VoiceClient :=
  { channel := ch, connected := true, playing := false, paused := false }

/-- ensure_voice (bot.py 130-155).  `requesterChannel` is
`interaction.user.voice.channel` collapsed to an `Option` (absent voice
state or absent channel both `none`).  Returns the updated state and the
voice client, `none` signalling the NoVoiceChannel failure. -/
def ensure_voice (requesterChannel : Option Nat) (s : GuildMusicState) :
    GuildMusicState × Option VoiceClient :=
  match requesterChannel with
  | none => (s, none)
  | some ch =>
    match s.voice_client with
    | none =>
        let vc := freshClient ch
        ({ s with voice_client := some vc }, some vc)
    | some vc =>
        if !vc.connected then
          let nvc := freshClient ch
          ({ s with voice_client := some nvc }, some nvc)
        else if vc.channel ≠ ch then
          let mvc := { vc with channel := ch }
          ({ s with voice_client := some mvc }, some mvc)
        else (s, some vc)

/-- Outcome of one run of start_playback's synchronous part. -/
inductive AdvanceOutcome where
  /-- voice client absent or disconnected: queue invalidated
  (bot.py 168-171). -/
  | lostConnection
  /-- queue empty: `now_playing` cleared, the 5s grace sleep is armed
  (bot.py 173-180); the post-sleep re-check is `idleCheck` below. -/
  | idleDrain
  /-- The call `vc.play` was made for the dequeued track (bot.py 209). -/
  | started (t : Track)
deriving DecidableEq, Repr

/-- The dequeue-and-start loop of start_playback (bot.py 173-209):
pop the head into `now_playing`; if FFmpeg source creation fails the
track is discarded and start_playback recurses immediately
(bot.py 203-207) — the voice client is unchanged across the recursion,
so its connectivity re-check yields the same answer and the recursion
is exactly this loop over the remaining queue. -/
def advanceLoop (ok : Track → Bool) (vc : VoiceClient) :
    List Track → GuildMusicState × AdvanceOutcome
  | [] => ({ queue := [], now_playing := none, voice_client := some vc },
           AdvanceOutcome.idleDrain)
  | t :: rest =>
      if ok t then
        ({ queue := rest, now_playing := some t
           voice_client := some { vc with playing := true } },
         AdvanceOutcome.started t)
      else advanceLoop ok vc rest

/-- start_playback (bot.py 158-210), up to its awaits: connectivity
check, then the dequeue loop. -/
def start_playback (ok : Track → Bool) (s : GuildMusicState) :
    GuildMusicState × AdvanceOutcome :=
  match s.voice_client with
  | some vc =>
      if vc.connected then advanceLoop ok vc s.queue
      else ({ s with now_playing := none, queue := [] },
            AdvanceOutcome.lostConnection)
  | none => ({ s with now_playing := none, queue := [] },
             AdvanceOutcome.lostConnection)

/-- Engine halt observed by the coordination context: the player thread
has stopped rendering, so `is_playing`/`is_paused` read false. -/
def clearPlaying (s : GuildMusicState) : GuildMusicState :=
  { s with voice_client :=
      s.voice_client.map (fun vc => { vc with playing := false, paused := false }) }

/-- Delivery of the engine's completion signal: after_playback
(bot.py 186-195) schedules start_playback on the event loop; by then the
player thread is no longer playing. -/
def completionSignal (ok : Track → Bool) (s : GuildMusicState) :
    GuildMusicState × AdvanceOutcome :=
  start_playback ok (clearPlaying s)

/-- The idle grace period, `await asyncio.sleep(5)` (bot.py 176). -/
def GRACE_PERIOD_SECONDS : Nat := 5

/-- The post-grace re-check and disconnect (bot.py 177-179):
`if not vc.is_playing() and not state.queue: await vc.disconnect();
state.voice_client = None`.  The conjunction and the decision are one
synchronous stretch of the event loop, hence one atomic step here. -/
def idleCheck (s : GuildMusicState) : GuildMusicState :=
  match s.voice_client with
  | some vc =>
      if !vc.playing && s.queue.isEmpty then { s with voice_client := none }
      else s
  | none => s

/-- User-visible result of the play command. -/
inductive PlayResult where
  /-- Message "Você precisa estar em um canal de voz primeiro." (via ensure_voice) -/
  | noVoice
  /-- Message "Não consegui encontrar ou tocar essa música..." (bot.py 299-302) -/
  | resolveFailed
  /-- uncaught IndexError escaping build_track_from_info (bot.py 104) -/
  | indexError
  /-- Message "Não foi possível obter o stream de áudio dessa faixa." (bot.py 308-311) -/
  | noStream
  /-- Message "Tocando agora: ..." then start_playback (bot.py 318-319) -/
  | startedNow (title : String)
  /-- Message "Adicionado à fila: ..." (bot.py 321) -/
  | queued (title : String)
deriving DecidableEq, Repr

/-- play (bot.py 281-321): ensure voice, resolve, build the track,
reject a falsy stream url, append to the tail of the queue, and start
playback when the engine is neither playing nor paused. -/
def play (ok : Track → Bool) (resolve : String → Option YtdlInfo)
    (requesterChannel : Option Nat) (requester_id : Nat)
    (s : GuildMusicState) (query : String) : GuildMusicState × PlayResult :=
  let r := ensure_voice requesterChannel s
  match r.2 with
  | none => (r.1, PlayResult.noVoice)
  | some vc =>
    match resolve query with
    | none => (r.1, PlayResult.resolveFailed)
    | some info =>
      match build_track_from_info info requester_id with
      | Except.error _ => (r.1, PlayResult.indexError)
      | Except.ok track =>
        if strFalsy track.stream_url then (r.1, PlayResult.noStream)
        else
          let s2 := { r.1 with queue := r.1.queue ++ [track] }
          if !vc.playing && !vc.paused then
            ((start_playback ok s2).1, PlayResult.startedNow track.title)
          else (s2, PlayResult.queued track.title)

/-- Result of the stop and leave commands. -/
inductive SessResult where
  /-- Message "Eu não estou em nenhum canal de voz." -/
  | notInVoice
  | done
deriving DecidableEq, Repr

/-- stop (bot.py 394-412): with a live session, clear the queue and
`now_playing`, then — afterwards — request the engine halt when playing
or paused.  The Bool reports whether `vc.stop()` was called; the halt's
completion signal is delivered separately by `completionSignal`.  The
stored voice client is not touched. -/
def stop (s : GuildMusicState) : GuildMusicState × SessResult × Bool :=
  match s.voice_client with
  | none => (s, SessResult.notInVoice, false)
  | some vc =>
      if !vc.connected then (s, SessResult.notInVoice, false)
      else
        ({ s with queue := [], now_playing := none }, SessResult.done,
         vc.playing || vc.paused)

/-- leave (bot.py 258-276): with a live session, clear the queue and
`now_playing`, disconnect, and clear the stored voice client. -/
def leave (s : GuildMusicState) : GuildMusicState × SessResult :=
  match s.voice_client with
  | none => (s, SessResult.notInVoice)
  | some vc =>
      if !vc.connected then (s, SessResult.notInVoice)
      else ({ queue := [], now_playing := none, voice_client := none },
            SessResult.done)

/-- Two-digit field of Python's `f"{n:02d}"` for the values arising from
`divmod(duration, 60)`. -/
def pad2 (n : Nat) : String :=
  if n < 10 then "0" ++ toString n else toString n

/-- Python `f"{minutes:02d}:{seconds:02d}"` with `minutes, seconds =
divmod(track.duration, 60)` (bot.py 431-432 and 456-457). -/
def fmtDuration (d : Nat) : String :=
  pad2 (d / 60) ++ ":" ++ pad2 (d % 60)

/-- Duration string produced by the nowplaying command (bot.py 429-432):
the default "desconhecida" survives only when `duration is None`. -/
def now_playing_duration_str (t : Track) : String :=
  match t.duration with
  | none => "desconhecida"
  | some d => fmtDuration d

/-- Duration string produced by the queue command (bot.py 455-459):
`if track.duration:` is a truthiness test, so 0 falls to "??:??". -/
def queue_cmd_duration_str (t : Track) : String :=
  match t.duration with
  | none => "??:??"
  | some d => if d = 0 then "??:??" else fmtDuration d

/-- Observed playback order: repeatedly deliver the completion signal
and record each track the engine is started for, until the group goes
idle or loses its connection. -/
def playSeq (ok : Track → Bool) : Nat → GuildMusicState → List Track
  | 0, _ => []
  | fuel + 1, s =>
      match completionSignal ok s with
      | (s1, AdvanceOutcome.started t) => t :: playSeq ok fuel s1
      | _ => []

/-- A concrete track used to instantiate general theorems. -/
def sampleTrack : Track :=
  { title := "song-a", stream_url := some "stream-a", webpage_url := "page-a"
    duration := some 61, requester_id := 1 }

/-- A second concrete track. -/
def sampleTrackB : Track :=
  { title := "song-b", stream_url := some "stream-b", webpage_url := "page-b"
    duration := some 0, requester_id := 2 }

/-- C4: if advance runs while the voice session is absent or
disconnected, it sets `now_playing` to `none`, clears the whole queue,
and reports connection loss without starting the engine (bot.py
168-171). -/
theorem advance_connection_loss (ok : Track → Bool) (s : GuildMusicState)
    (h : s.voice_client = none ∨
      ∃ vc, s.voice_client = some vc ∧ vc.connected = false) :
    start_playback ok s =
      ({ s with queue := [], now_playing := none },
       AdvanceOutcome.lostConnection) := by
  rcases h with h | ⟨vc, hvc, hconn⟩
  · simp [start_playback, h]
  · simp [start_playback, hvc, hconn]

/-- Witness for C4 at a concrete state with no stored voice client. -/
theorem advance_connection_loss_witness :
    start_playback (fun _ => true)
      { queue := [sampleTrack], now_playing := some sampleTrackB
        voice_client := none } =
      ({ queue := [], now_playing := none, voice_client := none },
       AdvanceOutcome.lostConnection) :=
  advance_connection_loss _ _ (Or.inl rfl)

/-- C8: `ensure_voice` fails exactly when the requester is in no voice
channel; a live session on a different channel is moved (queue
untouched); a session already on the requester's channel is returned
unchanged (bot.py 130-155). -/
theorem ensure_voice_spec :
    (∀ s : GuildMusicState, ensure_voice none s = (s, none)) ∧
    (∀ (ch : Nat) (s : GuildMusicState),
      (ensure_voice (some ch) s).2 ≠ none) ∧
    (∀ (ch : Nat) (s : GuildMusicState) (vc : VoiceClient),
      s.voice_client = some vc → vc.connected = true → vc.channel ≠ ch →
      ensure_voice (some ch) s =
        ({ s with voice_client := some { vc with channel := ch } },
         some { vc with channel := ch })) ∧
    (∀ (ch : Nat) (s : GuildMusicState) (vc : VoiceClient),
      s.voice_client = some vc → vc.connected = true → vc.channel = ch →
      ensure_voice (some ch) s = (s, some vc)) := by
  refine ⟨fun s => rfl, ?_, ?_, ?_⟩
  · intro ch s
    unfold ensure_voice
    cases hvc : s.voice_client with
    | none => simp
    | some vc =>
        by_cases hc : vc.connected <;> by_cases hch : vc.channel = ch <;>
          simp [hc, hch]
  · intro ch s vc hvc hconn hch
    simp [ensure_voice, hvc, hconn, hch]
  · intro ch s vc hvc hconn hch
    simp [ensure_voice, hvc, hconn, hch]

/-- Witness for C8: moving a connected session from channel 1 to the
requester's channel 2 leaves the rest of the state unchanged. -/
theorem ensure_voice_spec_witness :
    ensure_voice (some 2)
      { queue := [sampleTrack], now_playing := none
        voice_client := some (freshClient 1) } =
      ({ queue := [sampleTrack], now_playing := none
         voice_client := some { freshClient 1 with channel := 2 } },
       some { freshClient 1 with channel := 2 }) :=
  ensure_voice_spec.2.2.1 2 _ (freshClient 1) rfl rfl (by decide)

/-- A resolver result whose payload is a collection with zero
entries. -/
def emptySearchInfo : YtdlInfo :=
  { entries := some []
    top := { title := none, url := none, webpage_url := none
             original_url := none, duration := none } }

/-- C9: a resolver result with an empty `entries` list makes
`build_track_from_info` index the empty collection and fail with an
IndexError (bot.py 104), and the play command surfaces that uncaught
error rather than the ResolutionFailed or no-stream messages. -/
theorem empty_entries_index_error :
    build_track_from_info emptySearchInfo 7 = Except.error "IndexError" ∧
    (play (fun _ => true) (fun _ => some emptySearchInfo) (some 1) 7
        GuildMusicState.init "q").2 = PlayResult.indexError := by
  exact ⟨rfl, rfl⟩

/-- C10: a track with duration 0 is reported as "00:00" by the
nowplaying command (which tests `is not None`, bot.py 430) but as
"??:??" by the queue command (which tests truthiness, bot.py 455) —
the two reports disagree. -/
theorem zero_duration_reports_disagree (t : Track)
    (h : t.duration = some 0) :
    now_playing_duration_str t = "00:00" ∧
    queue_cmd_duration_str t = "??:??" ∧
    now_playing_duration_str t ≠ queue_cmd_duration_str t := by
  have e1 : now_playing_duration_str t = "00:00" := by
    simp [now_playing_duration_str, h]
    rfl
  have e2 : queue_cmd_duration_str t = "??:??" := by
    simp [queue_cmd_duration_str, h]
  refine ⟨e1, e2, ?_⟩
  rw [e1, e2]
  decide

/-- Witness for C10 at the concrete zero-duration track. -/
theorem zero_duration_reports_disagree_witness :
    now_playing_duration_str sampleTrackB = "00:00" ∧
    queue_cmd_duration_str sampleTrackB = "??:??" ∧
    now_playing_duration_str sampleTrackB ≠ queue_cmd_duration_str sampleTrackB :=
  zero_duration_reports_disagree sampleTrackB rfl

/-- C1: with a live session, stop clears the queue and `now_playing`
before the halt, so the halted track's completion signal finds an empty
queue and the group ends Idle with an empty queue — the stopped track is
never restarted (bot.py 400-412 with 173-180). -/
theorem stop_then_completion_idle (ok : Track → Bool) (s : GuildMusicState)
    (vc : VoiceClient) (hvc : s.voice_client = some vc)
    (hconn : vc.connected = true) :
    (stop s).1.queue = [] ∧ (stop s).1.now_playing = none ∧
    (completionSignal ok (stop s).1).1.queue = [] ∧
    (completionSignal ok (stop s).1).1.now_playing = none ∧
    (completionSignal ok (stop s).1).2 = AdvanceOutcome.idleDrain := by
  simp [stop, hvc, hconn, completionSignal, clearPlaying, start_playback,
    advanceLoop]

/-- Witness for C1: stopping a playing track, then delivering its
completion signal, at a concrete state. -/
theorem stop_then_completion_idle_witness :
    letI s : GuildMusicState :=
      { queue := [sampleTrackB], now_playing := some sampleTrack
        voice_client :=
          some { channel := 1, connected := true, playing := true
                 paused := false } }
    (stop s).1.queue = [] ∧ (stop s).1.now_playing = none ∧
    (completionSignal (fun _ => true) (stop s).1).1.queue = [] ∧
    (completionSignal (fun _ => true) (stop s).1).1.now_playing = none ∧
    (completionSignal (fun _ => true) (stop s).1).2 =
      AdvanceOutcome.idleDrain :=
  stop_then_completion_idle _ _ _ rfl rfl

/-- C2: the grace period is 5 seconds; the post-grace check disconnects
and clears the stored handle only when the engine is inactive and the
queue is still empty, is a no-op otherwise, and a play request that
arrives during the grace window (starting playback) leaves the session
in place (bot.py 173-180, 281-321). -/
theorem idle_grace_disconnect :
    GRACE_PERIOD_SECONDS = 5 ∧
    (∀ (s : GuildMusicState) (vc : VoiceClient), s.voice_client = some vc →
      vc.playing = false → s.queue = [] →
      idleCheck s = { s with voice_client := none }) ∧
    (∀ (s : GuildMusicState) (vc : VoiceClient), s.voice_client = some vc →
      vc.playing = true ∨ s.queue ≠ [] → idleCheck s = s) ∧
    (∀ (ok : Track → Bool) (resolve : String → Option YtdlInfo)
        (rid : Nat) (s : GuildMusicState) (vc : VoiceClient)
        (query : String) (info : YtdlInfo) (track : Track),
      s.voice_client = some vc → vc.connected = true →
      vc.playing = false → vc.paused = false → s.queue = [] →
      resolve query = some info →
      build_track_from_info info rid = Except.ok track →
      strFalsy track.stream_url = false → ok track = true →
      (play ok resolve (some vc.channel) rid s query).1.voice_client =
        some { vc with playing := true } ∧
      idleCheck (play ok resolve (some vc.channel) rid s query).1 =
        (play ok resolve (some vc.channel) rid s query).1) := by
  refine ⟨rfl, ?_, ?_, ?_⟩
  · intro s vc hvc hp hq
    simp [idleCheck, hvc, hp, hq]
  · intro s vc hvc h
    rcases h with hp | hq
    · simp [idleCheck, hvc, hp]
    · simp [idleCheck, hvc, List.isEmpty_iff, hq]
  · intro ok resolve rid s vc query info track hvc hconn hp hpa hq hres
      hbuild hurl hok
    have hplay :
        (play ok resolve (some vc.channel) rid s query).1 =
          { queue := [], now_playing := some track
            voice_client := some { vc with playing := true } } := by
      simp [play, ensure_voice, hvc, hconn, hres, hbuild, hurl, hp, hpa,
        start_playback, hq, advanceLoop, hok]
    rw [hplay]
    simp [idleCheck]

/-- Witness for C2: a play request landing during the grace window on an
idle, empty-queue state starts playback and the idle check then keeps
the session. -/
theorem idle_grace_disconnect_witness :
    letI s : GuildMusicState :=
      { queue := [], now_playing := none
        voice_client := some (freshClient 1) }
    letI info : YtdlInfo :=
      { entries := none
        top := { title := some "song-a", url := some "stream-a"
                 webpage_url := none, original_url := none
                 duration := some 61 } }
    (play (fun _ => true) (fun _ => some info) (some 1) 9 s "q").1.voice_client =
      some { freshClient 1 with playing := true } ∧
    idleCheck (play (fun _ => true) (fun _ => some info) (some 1) 9 s "q").1 =
      (play (fun _ => true) (fun _ => some info) (some 1) 9 s "q").1 :=
  idle_grace_disconnect.2.2.2 (fun _ => true) _ 9 _ (freshClient 1) "q" _ _
    rfl rfl rfl rfl rfl rfl rfl rfl rfl

/-- Every track of `q` fails engine start: the loop discards them all
and drains to Idle with an empty queue. -/
theorem advanceLoop_all_fail (ok : Track → Bool) (vc : VoiceClient)
    (q : List Track) (h : ∀ b ∈ q, ok b = false) :
    advanceLoop ok vc q =
      ({ queue := [], now_playing := none, voice_client := some vc },
       AdvanceOutcome.idleDrain) := by
  induction q with
  | nil => rfl
  | cons t rest ih =>
      have ht : ok t = false := h t (List.mem_cons_self t rest)
      rw [advanceLoop, ht]
      simp only [Bool.false_eq_true, if_false]
      exact ih (fun b hb => h b (List.mem_cons_of_mem t hb))

/-- A prefix of engine-start failures is discarded and the first
startable track is started, with the rest of the queue preserved. -/
theorem advanceLoop_skips_failures (ok : Track → Bool) (vc : VoiceClient)
    (bad : List Track) (good : Track) (rest : List Track)
    (hbad : ∀ b ∈ bad, ok b = false) (hgood : ok good = true) :
    advanceLoop ok vc (bad ++ good :: rest) =
      ({ queue := rest, now_playing := some good
         voice_client := some { vc with playing := true } },
       AdvanceOutcome.started good) := by
  induction bad with
  | nil =>
      rw [List.nil_append, advanceLoop, hgood]
      simp
  | cons b bs ih =>
      have hb : ok b = false := hbad b (List.mem_cons_self b bs)
      rw [List.cons_append, advanceLoop, hb]
      simp only [Bool.false_eq_true, if_false]
      exact ih (fun x hx => hbad x (List.mem_cons_of_mem b hx))

/-- C5: with a connected session, every engine-start failure at the
queue head discards the track without retry and advance immediately
tries the next, until a track starts (first conjunct) or the queue
drains to Idle (second conjunct); start_playback emits no user-facing
message in either case (bot.py 197-209 prints to the console only). -/
theorem engine_start_failure_skips :
    (∀ (ok : Track → Bool) (bad : List Track) (good : Track)
        (rest : List Track) (np : Option Track) (vc : VoiceClient),
      vc.connected = true → (∀ b ∈ bad, ok b = false) → ok good = true →
      start_playback ok
          { queue := bad ++ good :: rest, now_playing := np
            voice_client := some vc } =
        ({ queue := rest, now_playing := some good
           voice_client := some { vc with playing := true } },
         AdvanceOutcome.started good)) ∧
    (∀ (ok : Track → Bool) (q : List Track) (np : Option Track)
        (vc : VoiceClient),
      vc.connected = true → (∀ b ∈ q, ok b = false) →
      start_playback ok
          { queue := q, now_playing := np, voice_client := some vc } =
        ({ queue := [], now_playing := none, voice_client := some vc },
         AdvanceOutcome.idleDrain)) := by
  constructor
  · intro ok bad good rest np vc hconn hbad hgood
    have h := advanceLoop_skips_failures ok vc bad good rest hbad hgood
    rw [start_playback]
    simp only [hconn, if_true] at h ⊢
    exact h
  · intro ok q np vc hconn hq
    rw [start_playback]
    simp only [hconn, if_true]
    exact advanceLoop_all_fail ok vc q hq

/-- Witness for C5: a queue whose head fails engine start and whose
second track starts. -/
theorem engine_start_failure_skips_witness :
    start_playback (fun t => t.title == "song-b")
        { queue := [sampleTrack, sampleTrackB], now_playing := none
          voice_client := some (freshClient 1) } =
      ({ queue := [], now_playing := some sampleTrackB
         voice_client := some { freshClient 1 with playing := true } },
       AdvanceOutcome.started sampleTrackB) :=
  engine_start_failure_skips.1 (fun t => t.title == "song-b")
    [sampleTrack] sampleTrackB [] none (freshClient 1) rfl
    (by intro b hb; simp at hb; subst hb; rfl) rfl

/-- One completion step with a startable head track: the head is popped
into `now_playing` and the engine is started for it. -/
theorem completionSignal_step (ok : Track → Bool) (t : Track)
    (rest : List Track) (np : Option Track) (vc : VoiceClient)
    (hconn : vc.connected = true) (hok : ok t = true) :
    completionSignal ok
        { queue := t :: rest, now_playing := np, voice_client := some vc } =
      ({ queue := rest, now_playing := some t
         voice_client :=
           some { channel := vc.channel, connected := vc.connected
                  playing := true, paused := false } },
       AdvanceOutcome.started t) := by
  simp [completionSignal, clearPlaying, start_playback, advanceLoop, hconn,
    hok]

/-- When every engine start succeeds, repeated completion signals play
the queue front to back in exactly queue order. -/
theorem playSeq_all_ok (q : List Track) :
    ∀ (np : Option Track) (vc : VoiceClient), vc.connected = true →
      playSeq (fun _ => true) q.length
        { queue := q, now_playing := np, voice_client := some vc } = q := by
  induction q with
  | nil => intro np vc _; rfl
  | cons t rest ih =>
      intro np vc h
      rw [List.length_cons, playSeq,
        completionSignal_step (fun _ => true) t rest np vc h rfl]
      exact congrArg (t :: ·) (ih (some t) _ h)

/-- C3: the queue is FIFO — a play request while a track is playing
appends the resolved track at the tail of the queue (bot.py 314), and
successive completion signals make the queued tracks `now_playing`
front to back in exactly enqueue order (bot.py 183-184). -/
theorem queue_fifo :
    (∀ (ok : Track → Bool) (resolve : String → Option YtdlInfo) (rid : Nat)
        (s : GuildMusicState) (vc : VoiceClient) (query : String)
        (info : YtdlInfo) (track : Track),
      s.voice_client = some vc → vc.connected = true → vc.playing = true →
      resolve query = some info →
      build_track_from_info info rid = Except.ok track →
      strFalsy track.stream_url = false →
      play ok resolve (some vc.channel) rid s query =
        ({ s with queue := s.queue ++ [track] },
         PlayResult.queued track.title)) ∧
    (∀ (q : List Track) (np : Option Track) (vc : VoiceClient),
      vc.connected = true →
      playSeq (fun _ => true) q.length
        { queue := q, now_playing := np, voice_client := some vc } = q) := by
  constructor
  · intro ok resolve rid s vc query info track hvc hconn hp hres hbuild hurl
    simp [play, ensure_voice, hvc, hconn, hres, hbuild, hurl, hp]
  · exact fun q np vc h => playSeq_all_ok q np vc h

/-- Witness for C3: a track queued during playback lands at the tail,
and a two-track queue plays in enqueue order. -/
theorem queue_fifo_witness :
    play (fun _ => true)
        (fun _ => some { entries := none
                         top := { title := some "song-b"
                                  url := some "stream-b"
                                  webpage_url := some "page-b"
                                  original_url := none
                                  duration := some 0 } })
        (some 1) 2
        { queue := [sampleTrack], now_playing := some sampleTrack
          voice_client :=
            some { channel := 1, connected := true, playing := true
                   paused := false } } "song-b" =
      ({ queue := [sampleTrack, sampleTrackB]
         now_playing := some sampleTrack
         voice_client :=
           some { channel := 1, connected := true, playing := true
                  paused := false } },
       PlayResult.queued "song-b") ∧
    playSeq (fun _ => true) 2
        { queue := [sampleTrack, sampleTrackB], now_playing := none
          voice_client := some (freshClient 1) } =
      [sampleTrack, sampleTrackB] :=
  ⟨queue_fifo.1 (fun _ => true) _ 2 _
      { channel := 1, connected := true, playing := true, paused := false }
      "song-b" _ sampleTrackB rfl rfl rfl rfl rfl rfl,
   queue_fifo.2 [sampleTrack, sampleTrackB] none (freshClient 1) rfl⟩

/-- C6 counterexample: `stop` on a live, playing session does not clear
the stored voice client (bot.py 400-412 never assigns
`state.voice_client = None`), refuting the claim that stop resets
`voiceSession` to absent. -/
theorem stop_keeps_session_counterexample :
    (stop { queue := [sampleTrack], now_playing := some sampleTrackB
            voice_client :=
              some { channel := 1, connected := true, playing := true
                     paused := false } }).1.voice_client ≠ none := by
  simp [stop]

/-- An entry already in the registry is still found, unchanged, after
any `get_music_state` call. -/
theorem lookup_append_of_some (m l : StateRegistry) (g : Nat)
    (st : GuildMusicState) (h : List.lookup g m = some st) :
    List.lookup g (m ++ l) = some st := by
  induction m with
  | nil => simp [List.lookup] at h
  | cons p rest ih =>
      obtain ⟨k, v⟩ := p
      rw [List.lookup] at h
      rw [List.cons_append, List.lookup]
      cases hk : (g == k) with
      | false => rw [hk] at h; exact ih h
      | true => rw [hk] at h; exact h

/-- C6 amended: `leave` resets queue, `now_playing` and the voice
client; `stop` resets queue and `now_playing` but leaves the stored
voice client in place (the idle grace disconnect clears it later); and
the registry never removes a group's state object (bot.py 264-276,
400-412, 64-67). -/
theorem reset_on_leave_and_stop :
    (∀ (s : GuildMusicState) (vc : VoiceClient), s.voice_client = some vc →
      vc.connected = true →
      (leave s).1 =
        { queue := [], now_playing := none, voice_client := none }) ∧
    (∀ (s : GuildMusicState) (vc : VoiceClient), s.voice_client = some vc →
      vc.connected = true →
      (stop s).1.queue = [] ∧ (stop s).1.now_playing = none ∧
      (stop s).1.voice_client = s.voice_client) ∧
    (∀ (m : StateRegistry) (g g2 : Nat) (st : GuildMusicState),
      List.lookup g2 m = some st →
      List.lookup g2 (get_music_state m g).1 = some st) := by
  refine ⟨?_, ?_, ?_⟩
  · intro s vc hvc hconn
    simp [leave, hvc, hconn]
  · intro s vc hvc hconn
    simp [stop, hvc, hconn]
  · intro m g g2 st h
    unfold get_music_state
    cases hg : List.lookup g m with
    | some st2 => exact h
    | none => exact lookup_append_of_some m _ g2 st h

/-- Witness for C6 amended: a concrete leave, stop, and registry
lookup. -/
theorem reset_on_leave_and_stop_witness :
    letI s : GuildMusicState :=
      { queue := [sampleTrack], now_playing := some sampleTrackB
        voice_client :=
          some { channel := 1, connected := true, playing := true
                 paused := false } }
    (leave s).1 =
        { queue := [], now_playing := none, voice_client := none } ∧
    ((stop s).1.queue = [] ∧ (stop s).1.now_playing = none ∧
      (stop s).1.voice_client = s.voice_client) ∧
    List.lookup 1 (get_music_state [(1, s)] 2).1 = some s :=
  letI s : GuildMusicState :=
    { queue := [sampleTrack], now_playing := some sampleTrackB
      voice_client :=
        some { channel := 1, connected := true, playing := true
               paused := false } }
  ⟨reset_on_leave_and_stop.1 s _ rfl rfl,
   reset_on_leave_and_stop.2.1 s _ rfl rfl,
   reset_on_leave_and_stop.2.2 [(1, s)] 2 1 s rfl⟩

/-- ensure_voice never touches the queue or `now_playing`
(bot.py 130-155 only reads and writes `state.voice_client`). -/
theorem ensure_voice_preserves (rc : Option Nat) (s : GuildMusicState) :
    (ensure_voice rc s).1.queue = s.queue ∧
    (ensure_voice rc s).1.now_playing = s.now_playing := by
  unfold ensure_voice
  rcases rc with _ | ch
  · exact ⟨rfl, rfl⟩
  · rcases hvc : s.voice_client with _ | vc
    · simp
    · by_cases hc : vc.connected <;> by_cases hch : vc.channel = ch <;>
        simp [hc, hch]

/-- C7: when resolution of the query fails — an extraction error, or a
result whose built track has a falsy stream url — the play command
leaves the queue (and `now_playing`) exactly as before and starts or
enqueues nothing (bot.py 296-314). -/
theorem resolution_failure_preserves_queue
    (ok : Track → Bool) (resolve : String → Option YtdlInfo)
    (rc : Option Nat) (rid : Nat) (s : GuildMusicState) (query : String)
    (h : resolve query = none ∨
      ∃ info track, resolve query = some info ∧
        build_track_from_info info rid = Except.ok track ∧
        strFalsy track.stream_url = true) :
    (play ok resolve rc rid s query).1.queue = s.queue ∧
    (play ok resolve rc rid s query).1.now_playing = s.now_playing ∧
    ∀ ti, (play ok resolve rc rid s query).2 ≠ PlayResult.startedNow ti ∧
          (play ok resolve rc rid s query).2 ≠ PlayResult.queued ti := by
  have hp := ensure_voice_preserves rc s
  rcases hr : (ensure_voice rc s).2 with _ | vc
  · simp [play, hr, hp.1, hp.2]
  · rcases h with hres | ⟨info, track, hres, hbuild, hfal⟩
    · simp [play, hr, hres, hp.1, hp.2]
    · simp [play, hr, hres, hbuild, hfal, hp.1, hp.2]

/-- Witness for C7: a failing resolver call against a non-empty queue
changes nothing. -/
theorem resolution_failure_preserves_queue_witness :
    letI s : GuildMusicState :=
      { queue := [sampleTrack], now_playing := some sampleTrackB
        voice_client := some (freshClient 1) }
    (play (fun _ => true) (fun _ => none) (some 1) 7 s "q").1.queue =
      s.queue ∧
    (play (fun _ => true) (fun _ => none) (some 1) 7 s "q").1.now_playing =
      s.now_playing ∧
    ∀ ti,
      (play (fun _ => true) (fun _ => none) (some 1) 7 s "q").2 ≠
        PlayResult.startedNow ti ∧
      (play (fun _ => true) (fun _ => none) (some 1) 7 s "q").2 ≠
        PlayResult.queued ti :=
  resolution_failure_preserves_queue (fun _ => true) (fun _ => none)
    (some 1) 7 _ "q" (Or.inl rfl)

end BotRapage
